import Mathlib

set_option maxRecDepth 100000

/-!
Verification development for the `driver_521.py` device lifecycle driver.

The driver manages a USB fingerprint sensor: it polls the firmware version,
provisions a pre-shared key, flashes a verified firmware image when the device
is in update (IAP) mode, establishes a TLS session and sequences an image
capture.  This file gives a shallow embedding of the driver's logic:

* a full executable SHA-256 and HMAC-SHA256 (the `hashlib.sha256` / `hmac.new`
  primitives used by `update_firmware`), validated against published vectors;
* the firmware-tag key derivation of `update_firmware` (lines 101-107);
* a trace model of `update_firmware` / `write_firmware` over an environment
  of device responses, recording every device call;
* the firmware chunking of the transfer loop (lines 110-111);
* `check_psk` / `write_psk` (lines 54-73);
* the lifecycle loop of `main` (lines 340-380) as a per-iteration step
  function plus a fuel-indexed loop, over per-iteration device inputs;
* the TLS handshake relay `connect_device` (lines 142-163) and the ordered
  call list of `get_image` (lines 166-284);
* the PGM text serialisation of `write_pgm` (lines 287-293).

Bytes are modelled as `Nat` values below 256, byte strings as `List Nat`,
Python exceptions as an explicit `Except` error value.
-/

/-! ## SHA-256 (FIPS 180-4), executable over byte lists -/

/-- 2^32, the word modulus of SHA-256. -/
def M32 : Nat := 4294967296

/-- Addition modulo 2^32. -/
def add32 (a b : Nat) : Nat := (a + b) % M32

/-- Right rotation of a 32-bit word. -/
def rotr (n x : Nat) : Nat := ((x >>> n) ||| (x <<< (32 - n))) % M32

/-- Logical right shift. -/
def shr (n x : Nat) : Nat := x >>> n

/-- Bitwise complement on 32 bits. -/
def wnot (x : Nat) : Nat := x ^^^ (M32 - 1)

/-- The SHA-256 `Ch` function. -/
def chFun (x y z : Nat) : Nat := (x &&& y) ^^^ (wnot x &&& z)

/-- The SHA-256 `Maj` function. -/
def majFun (x y z : Nat) : Nat := (x &&& y) ^^^ (x &&& z) ^^^ (y &&& z)

/-- The SHA-256 Σ0 function. -/
def bigS0 (x : Nat) : Nat := rotr 2 x ^^^ rotr 13 x ^^^ rotr 22 x

/-- The SHA-256 Σ1 function. -/
def bigS1 (x : Nat) : Nat := rotr 6 x ^^^ rotr 11 x ^^^ rotr 25 x

/-- The SHA-256 σ0 function. -/
def smallS0 (x : Nat) : Nat := rotr 7 x ^^^ rotr 18 x ^^^ shr 3 x

/-- The SHA-256 σ1 function. -/
def smallS1 (x : Nat) : Nat := rotr 17 x ^^^ rotr 19 x ^^^ shr 10 x

/-- The 64 SHA-256 round constants (FIPS 180-4 section 4.2.2, written as
decimal words). -/
def shaK : List Nat :=
  [1116352408, 1899447441, 3049323471, 3921009573, 961987163,
   1508970993, 2453635748, 2870763221, 3624381080, 310598401,
   607225278, 1426881987, 1925078388, 2162078206, 2614888103,
   3248222580, 3835390401, 4022224774, 264347078, 604807628,
   770255983, 1249150122, 1555081692, 1996064986, 2554220882,
   2821834349, 2952996808, 3210313671, 3336571891, 3584528711,
   113926993, 338241895, 666307205, 773529912, 1294757372,
   1396182291, 1695183700, 1986661051, 2177026350, 2456956037,
   2730485921, 2820302411, 3259730800, 3345764771, 3516065817,
   3600352804, 4094571909, 275423344, 430227734, 506948616,
   659060556, 883997877, 958139571, 1322822218, 1537002063,
   1747873779, 1955562222, 2024104815, 2227730452, 2361852424,
   2428436474, 2756734187, 3204031479, 3329325298]

/-- The initial SHA-256 hash state (FIPS 180-4 section 5.3.3, decimal). -/
def shaH0 : List Nat :=
  [1779033703, 3144134277, 1013904242, 2773480762, 1359893119,
   2600822924, 528734635, 1541459225]

/-- Big-endian bytes to 32-bit words, four bytes per word. -/
def bytesToWordsBE : List Nat → List Nat
  | b0 :: b1 :: b2 :: b3 :: rest =>
      (((b0 * 256 + b1) * 256 + b2) * 256 + b3) :: bytesToWordsBE rest
  | _ => []

/-- A 32-bit word as four big-endian bytes. -/
def wordToBytesBE (w : Nat) : List Nat :=
  [w / 16777216 % 256, w / 65536 % 256, w / 256 % 256, w % 256]

/-- A 64-bit quantity as eight big-endian bytes. -/
def len64ToBytesBE (n : Nat) : List Nat :=
  [n / 72057594037927936 % 256, n / 281474976710656 % 256,
   n / 1099511627776 % 256, n / 4294967296 % 256,
   n / 16777216 % 256, n / 65536 % 256, n / 256 % 256, n % 256]

/-- Extend the 16-word block schedule by the given number of extra words. -/
def extendW (w : List Nat) : Nat → List Nat
  | 0 => w
  | n + 1 =>
    let t := w.length
    extendW
      (w ++ [(smallS1 (w.getD (t - 2) 0) + w.getD (t - 7) 0 +
              smallS0 (w.getD (t - 15) 0) + w.getD (t - 16) 0) % M32]) n

/-- One SHA-256 round on the eight-word working state. -/
def roundStep (kt wt : Nat)
    (st : Nat × Nat × Nat × Nat × Nat × Nat × Nat × Nat) :
    Nat × Nat × Nat × Nat × Nat × Nat × Nat × Nat :=
  match st with
  | (a, b, c, d, e, f, g, h) =>
    let t1 := (h + bigS1 e + chFun e f g + kt + wt) % M32
    let t2 := (bigS0 a + majFun a b c) % M32
    ((t1 + t2) % M32, a, b, c, (d + t1) % M32, e, f, g)

/-- The SHA-256 compression function on one 64-byte block. -/
def shaCompress (h : List Nat) (block : List Nat) : List Nat :=
  let w := extendW (bytesToWordsBE block) 48
  let st0 := (h.getD 0 0, h.getD 1 0, h.getD 2 0, h.getD 3 0,
              h.getD 4 0, h.getD 5 0, h.getD 6 0, h.getD 7 0)
  let fin := (List.range 64).foldl
    (fun st t => roundStep (shaK.getD t 0) (w.getD t 0) st) st0
  match fin with
  | (a, b, c, d, e, f, g, hh) =>
    [add32 (h.getD 0 0) a, add32 (h.getD 1 0) b, add32 (h.getD 2 0) c,
     add32 (h.getD 3 0) d, add32 (h.getD 4 0) e, add32 (h.getD 5 0) f,
     add32 (h.getD 6 0) g, add32 (h.getD 7 0) hh]

/-- SHA-256 padding: append 0x80, zeros, and the 64-bit big-endian bit length. -/
def shaPad (msg : List Nat) : List Nat :=
  let l := msg.length
  let zeros := (64 - (l + 9) % 64) % 64
  msg ++ [0x80] ++ List.replicate zeros 0 ++ len64ToBytesBE (8 * l)

/-- Split a byte list into consecutive 64-byte blocks. -/
def blocks64 (l : List Nat) : List (List Nat) :=
  (List.range ((l.length + 63) / 64)).map (fun i => (l.drop (64 * i)).take 64)

/-- SHA-256 of a byte list, as a 32-byte list. -/
def sha256 (msg : List Nat) : List Nat :=
  let hs := (blocks64 (shaPad msg)).foldl shaCompress shaH0
  (hs.map wordToBytesBE).flatten

/-- HMAC-SHA256 (RFC 2104) with the 64-byte SHA-256 block size, as used by
Python's `hmac.new(key, msg, sha256)`. -/
def hmacSha256 (key msg : List Nat) : List Nat :=
  let k0 := if 64 < key.length then sha256 key else key
  let k1 := k0 ++ List.replicate (64 - k0.length) 0
  let ipadKey := k1.map (fun b => b ^^^ 0x36)
  let opadKey := k1.map (fun b => b ^^^ 0x5c)
  sha256 (opadKey ++ sha256 (ipadKey ++ msg))

/-- FIPS 180-4 test vector: SHA-256 of the empty message. -/
theorem sha256_empty_vector :
    sha256 [] =
      [0xe3, 0xb0, 0xc4, 0x42, 0x98, 0xfc, 0x1c, 0x14,
       0x9a, 0xfb, 0xf4, 0xc8, 0x99, 0x6f, 0xb9, 0x24,
       0x27, 0xae, 0x41, 0xe4, 0x64, 0x9b, 0x93, 0x4c,
       0xa4, 0x95, 0x99, 0x1b, 0x78, 0x52, 0xb8, 0x55] := by
  decide

/-- FIPS 180-4 test vector: SHA-256 of the three bytes of the word abc. -/
theorem sha256_abc_vector :
    sha256 [0x61, 0x62, 0x63] =
      [0xba, 0x78, 0x16, 0xbf, 0x8f, 0x01, 0xcf, 0xea,
       0x41, 0x41, 0x40, 0xde, 0x5d, 0xae, 0x22, 0x23,
       0xb0, 0x03, 0x61, 0xa3, 0x96, 0x17, 0x7a, 0x9c,
       0xb4, 0x10, 0xff, 0x61, 0xf2, 0x00, 0x15, 0xad] := by
  decide

/-- RFC 4231 test case 2: HMAC-SHA256 with a 4-byte key and 28-byte message. -/
theorem hmac_rfc4231_case2 :
    hmacSha256 [0x4a, 0x65, 0x66, 0x65]
      [0x77, 0x68, 0x61, 0x74, 0x20, 0x64, 0x6f, 0x20, 0x79, 0x61,
       0x20, 0x77, 0x61, 0x6e, 0x74, 0x20, 0x66, 0x6f, 0x72, 0x20,
       0x6e, 0x6f, 0x74, 0x68, 0x69, 0x6e, 0x67, 0x3f] =
      [0x5b, 0xdc, 0xc1, 0x46, 0xbf, 0x60, 0x75, 0x4e,
       0x6a, 0x04, 0x24, 0x26, 0x08, 0x95, 0x75, 0xc7,
       0x5a, 0x00, 0x3f, 0x08, 0x9d, 0x27, 0x39, 0x83,
       0x9d, 0xec, 0x58, 0xb9, 0x64, 0xec, 0x38, 0x43] := by
  decide

/-! ## Error and byte-string basics for the driver model -/

/-- A Python exception as observed by the driver: a `ValueError` raised by the
driver itself (identified by its message), or an I/O fault raised by the
transport, the file system or the device library. -/
inductive PyError
  | valueError (msg : String)
  | ioError (msg : String)
deriving DecidableEq, Repr

deriving instance DecidableEq for Except

def msgFailedReadPsk : String := "Failed to read PSK"

def msgInvalidFlags : String := "Invalid flags"

def msgFailedWritePsk : String := "Failed to write PSK"

def msgFailedWriteFirmware : String := "Failed to write firmware"

def msgFailedCheckFirmware : String := "Failed to check firmware"

def msgUnchangedFirmware : String := "Unchanged firmware"

def msgFileFault : String := "firmware file fault"

def msgTransportFault : String := "transport fault"

/-- Two big-endian bytes, Python `struct.pack(">H", n)`. -/
def be16 (n : Nat) : List Nat := [n / 256 % 256, n % 256]

/-! ## Key material constants of `driver_521.py` -/

/-- `PSK`: 32 zero bytes (`bytes.fromhex("00" * 32)`, lines 20-21). -/
def PSK : List Nat := List.replicate 32 0

/-- `PMK_HASH` (lines 28-29): the expected key-commitment value
`66687aadf862bd776c8fc18b8e9f8e20089714856ee233b3902a591d0d5f2925`. -/
def PMK_HASH : List Nat :=
  [0x66, 0x68, 0x7a, 0xad, 0xf8, 0x62, 0xbd, 0x77,
   0x6c, 0x8f, 0xc1, 0x8b, 0x8e, 0x9f, 0x8e, 0x20,
   0x08, 0x97, 0x14, 0x85, 0x6e, 0xe2, 0x33, 0xb3,
   0x90, 0x2a, 0x59, 0x1d, 0x0d, 0x5f, 0x29, 0x25]

/-- Validation: the stored commitment constant is SHA-256 of the key material,
matching the spec's description of the key commitment. -/
theorem pmk_hash_is_sha256_psk : sha256 PSK = PMK_HASH := by decide

/-! ## Firmware-tag derivation (`update_firmware`, lines 101-107) -/

/-- The `mod` buffer: `for i in range(1, 65): mod += encode("<B", i)`. -/
def firmware_mod : List Nat :=
  (List.range' 1 64).foldl (fun acc i => acc ++ [i]) []

/-- `raw_pmk = (encode(">H", len(PSK)) + PSK) * 2` (line 104). -/
def raw_pmk : List Nat := (be16 PSK.length ++ PSK) ++ (be16 PSK.length ++ PSK)

/-- `pmk = sha256(raw_pmk).digest()` (line 105). -/
def pmk : List Nat := sha256 raw_pmk

/-- `pmk_hmac = hmac(pmk, mod, sha256).digest()` (line 106). -/
def pmk_hmac : List Nat := hmacSha256 pmk firmware_mod

/-- `firmware_hmac = hmac(pmk_hmac, firmware, sha256).digest()` (line 107):
the authentication tag the update engine sends to `check_firmware`. -/
def firmware_hmac (firmware : List Nat) : List Nat :=
  hmacSha256 pmk_hmac firmware

/-! Spec-side rendering of the same derivation, following the spec's words
(spec sections 4.3 steps 1-4), for the refinement claim. -/

/-- Spec step 1: the 64-byte modifier sequence of byte values 1..64 in order. -/
def modifierSpec : List Nat := (List.range 64).map (fun i => i + 1)

/-- Spec step 2 seed: the 2-byte big-endian length of the key material
followed by the key material itself, repeated twice. -/
def seedSpec : List Nat :=
  let once := be16 PSK.length ++ PSK
  once ++ once

/-- Spec step 2: `baseKey`, the 256-bit hash of the seed. -/
def baseKeySpec : List Nat := sha256 seedSpec

/-- Spec step 3: `sessionKey = KeyedHash(key=baseKey, message=modifier)`. -/
def sessionKeySpec : List Nat := hmacSha256 baseKeySpec modifierSpec

/-- Spec step 4: `firmwareTag = KeyedHash(key=sessionKey, message=image)`. -/
def firmwareTagSpec (image : List Nat) : List Nat :=
  hmacSha256 sessionKeySpec image

/-- C1: for every firmware byte sequence, the authentication tag computed by
the update engine equals HMAC-SHA256(sessionKey, firmware) with
sessionKey = HMAC-SHA256(baseKey, modifier), modifier the bytes 1..64,
baseKey = SHA256(seed), and seed the 2-byte big-endian key-material length
followed by the key material, repeated twice. -/
theorem firmware_tag_matches_spec (firmware : List Nat) :
    firmware_hmac firmware = firmwareTagSpec firmware := by
  have h : pmk_hmac = sessionKeySpec := by decide
  unfold firmware_hmac firmwareTagSpec
  rw [h]

/-! ## Update engine model (`write_firmware` / `update_firmware`, lines 80-128)

The device is an environment of scripted responses: the i-th
`device.write_firmware` call returns `some b` (device-reported status `b`) or
`none` (the transport raises); likewise for `device.check_firmware`; reading
the firmware file on a given outer attempt may fail.  Every device call is
recorded in a trace. -/

/-- A device call issued by the update engine. -/
inductive DevCall
  | writeFw (offset : Nat) (payload : List Nat) (number : Nat)
  | checkFw (tag : List Nat)
  | reset
  | disconnect
  | eraseApp
deriving DecidableEq, Repr

/-- Scripted device/file behaviour for one `update_firmware` call. -/
structure UpdateEnv where
  fileOk : Nat → Bool
  firmware : List Nat
  writeResp : Nat → Option Bool
  checkResp : Nat → Option Bool

/-- Occurrences of a given call in a trace. -/
def countCall (c : DevCall) : List DevCall → Nat
  | [] => 0
  | x :: tr => (if x = c then 1 else 0) + countCall c tr

theorem countCall_append (c : DevCall) (l1 l2 : List DevCall) :
    countCall c (l1 ++ l2) = countCall c l1 + countCall c l2 := by
  induction l1 with
  | nil => simp [countCall]
  | cons x tl ih => simp [countCall, ih]; ring

/-- `write_firmware` (lines 80-89): up to `tries` attempts of the device
chunk-write call; returns on the first device-reported success, raises
`ValueError("Failed to write firmware")` when all attempts report failure,
and propagates a transport fault.  `w` indexes the scripted responses;
the result carries the updated index and the calls issued. -/
def write_firmware (env : UpdateEnv) (w offset : Nat) (payload : List Nat)
    (number : Nat) : Nat → Except PyError Unit × Nat × List DevCall
  | 0 => (.error (.valueError msgFailedWriteFirmware), w, [])
  | t + 1 =>
    match env.writeResp w with
    | none => (.error (.ioError msgTransportFault), w + 1,
               [.writeFw offset payload number])
    | some true => (.ok (), w + 1, [.writeFw offset payload number])
    | some false =>
      match write_firmware env (w + 1) offset payload number t with
      | (r, w2, tr) => (r, w2, .writeFw offset payload number :: tr)

/-- The chunk sequence of the transfer loop (lines 109-111):
`for i in range(0, length, 256): firmware[i:i+256]`, each chunk paired with
its byte offset. -/
def chunkList (firmware : List Nat) : List (Nat × List Nat) :=
  (List.range ((firmware.length + 255) / 256)).map
    (fun k => (256 * k, (firmware.drop (256 * k)).take 256))

/-- The transfer loop body: write each chunk via `write_firmware` with
`number = 2` and the default 2-attempt budget; a chunk failure aborts the
loop and propagates. -/
def writeChunks (env : UpdateEnv) :
    Nat → List (Nat × List Nat) → Except PyError Unit × Nat × List DevCall
  | w, [] => (.ok (), w, [])
  | w, c :: rest =>
    match write_firmware env w c.1 c.2 2 2 with
    | (.error e, w2, tr) => (.error e, w2, tr)
    | (.ok _, w2, tr) =>
      match writeChunks env w2 rest with
      | (r, w3, tr2) => (r, w3, tr ++ tr2)

/-- The body of the `try` block of `update_firmware` (lines 96-119): up to
`tries` outer rounds of read-image / derive tag / transfer / verify.  On a
verified round the device is reset and disconnected and the call returns; a
device-reported verification failure starts the next round; exhausting the
rounds raises `ValueError("Failed to check firmware")`; any fault propagates
out of the loop at once. -/
def update_rounds (env : UpdateEnv) (w c attempt : Nat) :
    Nat → Except PyError Unit × List DevCall
  | 0 => (.error (.valueError msgFailedCheckFirmware), [])
  | t + 1 =>
    if env.fileOk attempt then
      match writeChunks env w (chunkList env.firmware) with
      | (.error e, _, tr) => (.error e, tr)
      | (.ok _, w2, tr) =>
        match env.checkResp c with
        | none => (.error (.ioError msgTransportFault),
                   tr ++ [.checkFw (firmware_hmac env.firmware)])
        | some true => (.ok (),
                        tr ++ [.checkFw (firmware_hmac env.firmware),
                               .reset, .disconnect])
        | some false =>
          match update_rounds env w2 (c + 1) (attempt + 1) t with
          | (r, tr2) => (r, tr ++ .checkFw (firmware_hmac env.firmware) :: tr2)
    else (.error (.ioError msgFileFault), [])

/-- `update_firmware` (lines 92-128): the try body with 2 outer rounds; any
exception triggers `erase_firmware` (line 126, `device.mcu_erase_app`) and is
then re-raised unchanged. -/
def update_firmware (env : UpdateEnv) : Except PyError Unit × List DevCall :=
  match update_rounds env 0 0 0 2 with
  | (.ok u, tr) => (.ok u, tr)
  | (.error e, tr) => (.error e, tr ++ [.eraseApp])

theorem countErase_write_firmware (env : UpdateEnv) (w offset : Nat)
    (payload : List Nat) (number t : Nat) :
    countCall .eraseApp (write_firmware env w offset payload number t).2.2 = 0 := by
  induction t generalizing w with
  | zero => simp [write_firmware, countCall]
  | succ t ih =>
    unfold write_firmware
    match h : env.writeResp w with
    | none => simp [h, countCall]
    | some true => simp [h, countCall]
    | some false =>
      simp only [h]
      have := ih (w + 1)
      match hw : write_firmware env (w + 1) offset payload number t with
      | (r, w2, tr) =>
        rw [hw] at this
        simpa [countCall] using this

theorem countErase_writeChunks (env : UpdateEnv) (cs : List (Nat × List Nat))
    (w : Nat) :
    countCall .eraseApp (writeChunks env w cs).2.2 = 0 := by
  induction cs generalizing w with
  | nil => simp [writeChunks, countCall]
  | cons ch rest ih =>
    unfold writeChunks
    have h1 := countErase_write_firmware env w ch.1 ch.2 2 2
    rcases hw : write_firmware env w ch.1 ch.2 2 2 with ⟨r1, w2, tr⟩
    rw [hw] at h1
    simp at h1
    cases r1 with
    | error e => simpa using h1
    | ok u =>
      have h2 := ih w2
      rcases hc : writeChunks env w2 rest with ⟨r2, w3, tr2⟩
      rw [hc] at h2
      simp at h2
      simp [countCall_append, h1, h2]
      rw [hc]
      simpa using h2

theorem countErase_update_rounds (env : UpdateEnv) (t w c attempt : Nat) :
    countCall .eraseApp (update_rounds env w c attempt t).2 = 0 := by
  induction t generalizing w c attempt with
  | zero => simp [update_rounds, countCall]
  | succ t ih =>
    unfold update_rounds
    by_cases hf : env.fileOk attempt
    · simp only [hf, if_true]
      have h1 := countErase_writeChunks env (chunkList env.firmware) w
      rcases hw : writeChunks env w (chunkList env.firmware) with ⟨r1, w2, tr⟩
      rw [hw] at h1
      simp at h1
      cases r1 with
      | error e => simpa using h1
      | ok u =>
        rcases hc : env.checkResp c with _ | b
        · simp [countCall_append, countCall, h1]
        · cases b
          · have h2 := ih w2 (c + 1) (attempt + 1)
            rcases hr : update_rounds env w2 (c + 1) (attempt + 1) t with ⟨r2, tr2⟩
            rw [hr] at h2
            simp at h2
            simp [countCall_append, countCall, h1, h2]
            rw [hr]
            simpa using h2
          · simp [countCall_append, countCall, h1]
    · simp [hf, countCall]

/-- C2: every exception inside the firmware update triggers exactly one
device firmware-erase call, issued after all other device calls and before
the same exception is re-raised; on the successful path no erase call is
issued. -/
theorem update_rollback (env : UpdateEnv) :
    ((update_firmware env).1 = .ok () →
        countCall .eraseApp (update_firmware env).2 = 0)
    ∧ ∀ e, (update_firmware env).1 = .error e →
        countCall .eraseApp (update_firmware env).2 = 1
        ∧ (update_firmware env).2.getLast? = some .eraseApp
        ∧ (update_rounds env 0 0 0 2).1 = .error e := by
  have h0 := countErase_update_rounds env 2 0 0 0
  unfold update_firmware
  match hr : update_rounds env 0 0 0 2 with
  | (.ok u, tr) =>
    rw [hr] at h0
    constructor
    · intro _
      simpa using h0
    · intro e he
      simp at he
  | (.error e0, tr) =>
    rw [hr] at h0
    constructor
    · intro h
      simp at h
    · intro e he
      simp at he
      refine ⟨?_, ?_, ?_⟩
      · simp at h0
        simp [countCall_append, countCall, h0]
      · simp [List.getLast?_concat]
      · simp [he]

/-- Environment for the C2 witness: the firmware file read fails at once. -/
def envFileFault : UpdateEnv :=
  { fileOk := fun _ => false, firmware := [],
    writeResp := fun _ => some true, checkResp := fun _ => some true }

/-- Witness for C2 at a concrete environment whose file read faults: the
update fails, erases exactly once, and the erase is the final device call. -/
theorem update_rollback_witness :
    countCall .eraseApp (update_firmware envFileFault).2 = 1
    ∧ (update_firmware envFileFault).2.getLast? = some .eraseApp := by
  have h2 := (update_rollback envFileFault).2 (.ioError msgFileFault) (by rfl)
  exact ⟨h2.1, h2.2.1⟩

theorem chunkList_getD (fw : List Nat) (k : Nat)
    (hk : k < (fw.length + 255) / 256) :
    (chunkList fw).getD k (0, []) = (256 * k, (fw.drop (256 * k)).take 256) := by
  unfold chunkList
  rw [List.getD_eq_getElem?_getD, List.getElem?_map, List.getElem?_range hk]
  rfl

theorem writeChunks_allOk (env : UpdateEnv)
    (hall : ∀ i, env.writeResp i = some true) (cs : List (Nat × List Nat)) :
    ∀ w, (writeChunks env w cs).2.2 =
      cs.map (fun ch => DevCall.writeFw ch.1 ch.2 2) := by
  induction cs with
  | nil => intro w; simp [writeChunks]
  | cons ch rest ih =>
    intro w
    have hw : write_firmware env w ch.1 ch.2 2 2 =
        (.ok (), w + 1, [.writeFw ch.1 ch.2 2]) := by
      unfold write_firmware
      rw [hall w]
    unfold writeChunks
    rw [hw]
    rcases hc : writeChunks env (w + 1) rest with ⟨r2, w3, tr2⟩
    have h2 := ih (w + 1)
    rw [hc] at h2
    simp at h2
    simp [h2]
    rw [hc]
    simpa using h2

/-- C6: for an image of length `L` the update engine's transfer loop issues
exactly `⌈L/256⌉` chunk writes, at strictly increasing offsets `0, 256, ...`;
chunk `k` is the 256-byte slice of the image starting at offset `256*k`;
every chunk except the last has length 256 and the final chunk has length
`L % 256` (or 256 when `L` is a positive multiple of 256).  When the device
accepts every write on the first attempt, the issued device calls are
exactly one `write_firmware(offset, chunk, 2)` call per chunk, in order. -/
theorem chunking (fw : List Nat) :
    (chunkList fw).length = (fw.length + 255) / 256
    ∧ (∀ k, k < (fw.length + 255) / 256 →
        (chunkList fw).getD k (0, []) =
          (256 * k, (fw.drop (256 * k)).take 256))
    ∧ (∀ j k, j < k → k < (fw.length + 255) / 256 →
        ((chunkList fw).getD j (0, [])).1 < ((chunkList fw).getD k (0, [])).1)
    ∧ (∀ k, k + 1 < (fw.length + 255) / 256 →
        ((chunkList fw).getD k (0, [])).2.length = 256)
    ∧ (0 < (fw.length + 255) / 256 →
        ((chunkList fw).getD ((fw.length + 255) / 256 - 1) (0, [])).2.length =
          if fw.length % 256 = 0 then 256 else fw.length % 256)
    ∧ (∀ env : UpdateEnv, (∀ i, env.writeResp i = some true) → ∀ w,
        (writeChunks env w (chunkList fw)).2.2 =
          (chunkList fw).map (fun ch => DevCall.writeFw ch.1 ch.2 2)) := by
  refine ⟨?_, ?_, ?_, ?_, ?_, ?_⟩
  · simp [chunkList]
  · intro k hk
    exact chunkList_getD fw k hk
  · intro j k hjk hk
    rw [chunkList_getD fw j (hjk.trans hk), chunkList_getD fw k hk]
    simp
    omega
  · intro k hk
    rw [chunkList_getD fw k (by omega)]
    simp [List.length_take, List.length_drop]
    omega
  · intro hn
    rw [chunkList_getD fw ((fw.length + 255) / 256 - 1) (by omega)]
    simp [List.length_take, List.length_drop]
    by_cases hz : fw.length % 256 = 0
    · simp [hz]
      omega
    · simp [hz]
      omega
  · intro env hall w
    exact writeChunks_allOk env hall (chunkList fw) w

/-- Witness for C6 on a concrete 300-byte image: two chunks, the final one
of length `300 % 256 = 44`. -/
theorem chunking_witness :
    (chunkList (List.replicate 300 7)).length = 2
    ∧ ((chunkList (List.replicate 300 7)).getD 1 (0, [])).2.length = 44 := by
  have h := chunking (List.replicate 300 7)
  constructor
  · have h1 := h.1
    simpa using h1
  · have h2 := h.2.2.2.2.1 (by simp)
    simpa using h2

/-! ## Firmware version strings and classification (lines 16-18, 352-377)

The three version patterns contain no regular-expression metacharacters
except `[0-9]{2}` in `VALID_FIRMWARE`, so `re.fullmatch` is string equality
for `TARGET_FIRMWARE` and `IAP_FIRMWARE`, and prefix-plus-two-digits for
`VALID_FIRMWARE`.  Firmware strings are modelled as `List Char`. -/

def targetStr : String := "GFUSB_GM168SEC_APP_10019"

def iapStr : String := "MILAN_GM168SEC_IAP_10007"

def validStemStr : String := "GFUSB_GM168SEC_APP_100"

/-- `TARGET_FIRMWARE` (line 16). -/
def TARGET_FIRMWARE : List Char := targetStr.data

/-- `IAP_FIRMWARE` (line 17). -/
def IAP_FIRMWARE : List Char := iapStr.data

/-- The literal part of `VALID_FIRMWARE` (line 18). -/
def validStem : List Char := validStemStr.data

def isDigitCh (ch : Char) : Bool := '0' ≤ ch && ch ≤ '9'

/-- `re.fullmatch("GFUSB_GM168SEC_APP_100[0-9]{2}", s)`: the 22-character
literal stem followed by exactly two decimal digits. -/
def matchValidFirmware (s : List Char) : Bool :=
  s.length == 24 && (s.take 22 == validStem) && (s.drop 22).all isDigitCh

/-- The four firmware classes of the dispatch in `main` (lines 352-377). -/
inductive FwClass
  | target
  | obsoleteValid
  | updateMode
  | unrecognized
deriving DecidableEq, Repr

/-- The dispatch order of `main`: `TARGET_FIRMWARE` first, then
`VALID_FIRMWARE`, then `IAP_FIRMWARE`, else unrecognized.  (Each earlier
branch of the source ends in `continue`/`return`/`raise`, so the successive
`if fullmatch(...)` tests behave as a first-match-wins chain.) -/
def classify (s : List Char) : FwClass :=
  if s = TARGET_FIRMWARE then .target
  else if matchValidFirmware s then .obsoleteValid
  else if s = IAP_FIRMWARE then .updateMode
  else .unrecognized

/-! ## PSK commitment check and write (lines 54-73) -/

/-- The reply of `device.preset_psk_read`: a success flag, the echoed
address/flags word, and the payload bytes. -/
structure PskReply where
  ok : Bool
  flags : Nat
  data : List Nat
deriving DecidableEq, Repr

/-- A well-formed reply carrying the expected commitment. -/
def pskGood : PskReply := { ok := true, flags := 0xbb020001, data := PMK_HASH }

/-- `check_psk` (lines 54-62): raises on a failed read or a mismatched
echoed flags word, otherwise returns whether the payload equals `PMK_HASH`. -/
def check_psk (r : PskReply) : Except PyError Bool :=
  if !r.ok then .error (.valueError msgFailedReadPsk)
  else if r.flags != 0xbb020001 then .error (.valueError msgInvalidFlags)
  else .ok (r.data == PMK_HASH)

/-- A device call or controller action of the lifecycle loop. -/
inductive Ev
  | fwVersion (s : List Char)
  | pskRead
  | pskWrite
  | eraseApp
  | runDriver
  | updateFw
  | newDevice
  | nop
deriving DecidableEq, Repr

/-- Occurrences of a given loop event in a trace. -/
def countEv (e : Ev) : List Ev → Nat
  | [] => 0
  | x :: tr => (if x = e then 1 else 0) + countEv e tr

/-- `write_psk` (lines 65-73): one `preset_psk_write` device call; on
device-reported failure return `False` without retrying; on reported success
immediately re-run `check_psk` and return its result. -/
def write_psk (writeOk : Bool) (readback : PskReply) :
    Except PyError Bool × List Ev :=
  if !writeOk then (.ok false, [.pskWrite])
  else
    match check_psk readback with
    | .error e => (.error e, [.pskWrite, .pskRead])
    | .ok b => (.ok b, [.pskWrite, .pskRead])

/-! ## The lifecycle loop of `main` (lines 340-380) -/

/-- The device-dependent inputs of one loop iteration: the polled firmware
string, the commitment-read reply of `check_psk`, the device status of
`preset_psk_write` and the readback reply inside `write_psk`, and the
outcomes of the abstracted `update_firmware` and `run_driver` calls
(`none` = returns, `some e` = raises `e`). -/
structure IterInput where
  fw : List Char
  psk1 : PskReply
  writeOk : Bool
  psk2 : PskReply
  updateResult : Option PyError
  runResult : Option PyError

/-- The control outcome of one loop iteration. -/
inductive IterOut
  | again (prev : List Char)
  | exitOk
  | fail (e : PyError)
deriving DecidableEq, Repr

def warnRemoveStr : String :=
  "Please consider that removing this security is a very bad idea!"

def nlStr : String := "\n"

/-- `warning` (lines 49-51): frame the text between two rows of `#` of the
length of its longest line, with terminal colour escapes. -/
def warning (text : String) : String :=
  let decoLen := (text.splitOn nlStr).foldl (fun a l => max a l.length) 0
  let decorator := String.mk (List.replicate decoLen '#')
  "\x1b[31;5m" ++ decorator ++ nlStr ++ text ++ nlStr ++ decorator ++ "\x1b[0m"

def msgInvalidFirmwareHead : String := "Invalid firmware\n"

/-- The message of the unrecognized-firmware `ValueError` (lines 377-380). -/
def msgInvalidFirmware : String := msgInvalidFirmwareHead ++ warning warnRemoveStr

/-- One iteration of the `while True:` loop of `main` (lines 340-380):
poll the firmware version, run `check_psk`, apply the stall guard, update
`previous_firmware`, then dispatch on the firmware class. -/
def main_iter (previous : Option (List Char)) (inp : IterInput) :
    IterOut × List Ev :=
  match check_psk inp.psk1 with
  | .error e => (.fail e, [.fwVersion inp.fw, .pskRead])
  | .ok validPsk =>
    if previous = some inp.fw then
      (.fail (.valueError msgUnchangedFirmware), [.fwVersion inp.fw, .pskRead])
    else
      match classify inp.fw with
      | .target =>
        if !validPsk then
          (.again inp.fw, [.fwVersion inp.fw, .pskRead, .eraseApp])
        else
          match inp.runResult with
          | some e => (.fail e, [.fwVersion inp.fw, .pskRead, .runDriver])
          | none => (.exitOk, [.fwVersion inp.fw, .pskRead, .runDriver])
      | .obsoleteValid =>
        (.again inp.fw, [.fwVersion inp.fw, .pskRead, .eraseApp])
      | .updateMode =>
        if !validPsk then
          match write_psk inp.writeOk inp.psk2 with
          | (.error e, wtr) =>
            (.fail e, .fwVersion inp.fw :: .pskRead :: wtr)
          | (.ok false, wtr) =>
            (.fail (.valueError msgFailedWritePsk),
             .fwVersion inp.fw :: .pskRead :: wtr)
          | (.ok true, wtr) =>
            match inp.updateResult with
            | some e =>
              (.fail e, .fwVersion inp.fw :: .pskRead :: (wtr ++ [.updateFw]))
            | none =>
              (.again inp.fw,
               .fwVersion inp.fw :: .pskRead ::
                 (wtr ++ [.updateFw, .newDevice, .nop]))
        else
          match inp.updateResult with
          | some e => (.fail e, [.fwVersion inp.fw, .pskRead, .updateFw])
          | none =>
            (.again inp.fw,
             [.fwVersion inp.fw, .pskRead, .updateFw, .newDevice, .nop])
      | .unrecognized =>
        (.fail (.valueError msgInvalidFirmware), [.fwVersion inp.fw, .pskRead])

/-- The `while True:` loop, fuel-indexed; `none` means the fuel ran out with
the loop still running.  The trace concatenates the iteration traces. -/
def main_loop (env : Nat → IterInput) (previous : Option (List Char))
    (i : Nat) : Nat → Option (Except PyError Unit) × List Ev
  | 0 => (none, [])
  | fuel + 1 =>
    match main_iter previous (env i) with
    | (.exitOk, tr) => (some (.ok ()), tr)
    | (.fail e, tr) => (some (.error e), tr)
    | (.again p, tr) =>
      match main_loop env (some p) (i + 1) fuel with
      | (r, tr2) => (r, tr ++ tr2)

theorem write_psk_ok_true (w : Bool) (r : PskReply)
    (h : (write_psk w r).1 = .ok true) :
    write_psk w r = (.ok true, [.pskWrite, .pskRead]) := by
  cases w
  · simp [write_psk] at h
  · unfold write_psk at h ⊢
    rcases hc : check_psk r with e | b
    · rw [hc] at h
      simp at h
    · cases b
      · rw [hc] at h
        simp at h
      · simp

theorem write_psk_trace (w : Bool) (r : PskReply) :
    (write_psk w r).2 = [.pskWrite] ∨ (write_psk w r).2 = [.pskWrite, .pskRead] := by
  cases w
  · simp [write_psk]
  · unfold write_psk
    rcases check_psk r with e | b <;> simp

/-- C8: `write_psk` returns `False` on a device-reported write failure; on
reported success it immediately re-runs `check_psk` and returns that check's
result; it never returns `True` unless the readback check returns `True`;
and it issues the `preset_psk_write` device call exactly once (no retry). -/
theorem write_psk_spec (writeOk : Bool) (readback : PskReply) :
    (writeOk = false → write_psk writeOk readback = (.ok false, [.pskWrite]))
    ∧ (writeOk = true →
        (write_psk writeOk readback).1 = check_psk readback
        ∧ (write_psk writeOk readback).2 = [.pskWrite, .pskRead])
    ∧ ((write_psk writeOk readback).1 = .ok true →
        writeOk = true ∧ check_psk readback = .ok true)
    ∧ countEv .pskWrite (write_psk writeOk readback).2 = 1 := by
  refine ⟨?_, ?_, ?_, ?_⟩
  · intro h
    subst h
    simp [write_psk]
  · intro h
    subst h
    unfold write_psk
    rcases hc : check_psk readback with e | b <;> simp
  · intro h
    cases writeOk
    · simp [write_psk] at h
    · refine ⟨rfl, ?_⟩
      unfold write_psk at h
      rcases hc : check_psk readback with e | b
      · rw [hc] at h
        simp at h
      · rw [hc] at h
        cases b
        · simp at h
        · rfl
  · rcases write_psk_trace writeOk readback with ht | ht <;>
      simp [ht, countEv]

/-- Witness for C8: a successful write with a verifying readback returns the
readback check's result over the trace write-then-read. -/
theorem write_psk_spec_witness :
    (write_psk true pskGood).1 = check_psk pskGood
    ∧ (write_psk true pskGood).2 = [.pskWrite, .pskRead] := by
  exact (write_psk_spec true pskGood).2.1 rfl

/-- C7: classification is total, first-match-wins and mutually exclusive:
a string is Target exactly when it equals `TARGET_FIRMWARE`, ObsoleteValid
exactly when it matches the `VALID_FIRMWARE` pattern and is not the target,
UpdateMode exactly when it equals `IAP_FIRMWARE`, else Unrecognized; in
particular `TARGET_FIRMWARE` itself matches the `VALID_FIRMWARE` family
pattern yet is classified Target, not ObsoleteValid. -/
theorem classification (s : List Char) :
    (matchValidFirmware TARGET_FIRMWARE = true
      ∧ classify TARGET_FIRMWARE = .target)
    ∧ (classify s = .target ↔ s = TARGET_FIRMWARE)
    ∧ (classify s = .obsoleteValid ↔
        s ≠ TARGET_FIRMWARE ∧ matchValidFirmware s = true)
    ∧ (classify s = .updateMode ↔ s = IAP_FIRMWARE)
    ∧ (classify s = .unrecognized ↔
        s ≠ TARGET_FIRMWARE ∧ matchValidFirmware s = false ∧ s ≠ IAP_FIRMWARE) := by
  have hT : matchValidFirmware TARGET_FIRMWARE = true := by decide
  have hI : matchValidFirmware IAP_FIRMWARE = false := by decide
  have hIT : IAP_FIRMWARE ≠ TARGET_FIRMWARE := by decide
  have hTI : TARGET_FIRMWARE ≠ IAP_FIRMWARE := by decide
  refine ⟨⟨hT, by simp [classify]⟩, ?_, ?_, ?_, ?_⟩ <;>
    · unfold classify
      split_ifs with h1 h2 h3 <;> simp_all
      all_goals
        rintro rfl
        simp_all

/-- Witness for C7: the target string matches the family pattern yet is
classified Target, and the IAP string is classified UpdateMode. -/
theorem classification_witness :
    classify TARGET_FIRMWARE = .target
    ∧ matchValidFirmware TARGET_FIRMWARE = true
    ∧ classify IAP_FIRMWARE = .updateMode := by
  refine ⟨(classification TARGET_FIRMWARE).1.2, (classification TARGET_FIRMWARE).1.1, ?_⟩
  exact (classification IAP_FIRMWARE).2.2.2.1.mpr rfl

theorem main_iter_shape (previous : Option (List Char)) (inp : IterInput) :
    ∃ rest, (main_iter previous inp).2 = .fwVersion inp.fw :: .pskRead :: rest := by
  unfold main_iter
  repeat' split
  all_goals exact ⟨_, rfl⟩

theorem main_iter_again_eq (previous : Option (List Char)) (inp : IterInput)
    (s : List Char) (tr : List Ev)
    (h : main_iter previous inp = (.again s, tr)) : s = inp.fw := by
  unfold main_iter at h
  repeat' split at h
  all_goals simp_all

/-- C10: every lifecycle-loop iteration polls the firmware version and then
issues exactly one PSK-commitment read before the stall guard and the
classification run; an iteration that ends in the stall error or the
unrecognized-firmware error has still issued exactly one commitment read
after its firmware poll, and nothing else. -/
theorem iteration_psk_read (previous : Option (List Char)) (inp : IterInput) :
    (main_iter previous inp).2.take 2 = [.fwVersion inp.fw, .pskRead]
    ∧ (previous = some inp.fw →
        inp.psk1.ok = true → inp.psk1.flags = 0xbb020001 →
        main_iter previous inp =
          (.fail (.valueError msgUnchangedFirmware),
           [.fwVersion inp.fw, .pskRead])
        ∧ countEv .pskRead ((main_iter previous inp).2.drop 1) = 1)
    ∧ (previous ≠ some inp.fw → classify inp.fw = .unrecognized →
        inp.psk1.ok = true → inp.psk1.flags = 0xbb020001 →
        main_iter previous inp =
          (.fail (.valueError msgInvalidFirmware),
           [.fwVersion inp.fw, .pskRead])
        ∧ countEv .pskRead ((main_iter previous inp).2.drop 1) = 1) := by
  refine ⟨?_, ?_, ?_⟩
  · obtain ⟨rest, hr⟩ := main_iter_shape previous inp
    rw [hr]
    rfl
  · intro hp hok hfl
    have hcp : check_psk inp.psk1 = .ok (inp.psk1.data == PMK_HASH) := by
      unfold check_psk
      simp [hok, hfl]
    have heq : main_iter previous inp =
        (.fail (.valueError msgUnchangedFirmware),
         [.fwVersion inp.fw, .pskRead]) := by
      unfold main_iter
      rw [hcp]
      simp [hp]
    refine ⟨heq, ?_⟩
    rw [heq]
    simp [countEv]
  · intro hp hcl hok hfl
    have hcp : check_psk inp.psk1 = .ok (inp.psk1.data == PMK_HASH) := by
      unfold check_psk
      simp [hok, hfl]
    have heq : main_iter previous inp =
        (.fail (.valueError msgInvalidFirmware),
         [.fwVersion inp.fw, .pskRead]) := by
      unfold main_iter
      rw [hcp]
      simp [hp, hcl]
    refine ⟨heq, ?_⟩
    rw [heq]
    simp [countEv]

def unknownStr : String := "TOTALLY_UNKNOWN_FW"

/-- A concrete iteration input polling an unrecognized firmware string. -/
def iterUnknown : IterInput :=
  { fw := unknownStr.data, psk1 := pskGood, writeOk := true, psk2 := pskGood,
    updateResult := none, runResult := none }

/-- Witness for C10: an iteration that polls an unrecognized string raises
and its trace is exactly the firmware poll followed by one commitment read. -/
theorem iteration_psk_read_witness :
    main_iter none iterUnknown =
      (.fail (.valueError msgInvalidFirmware),
       [.fwVersion iterUnknown.fw, .pskRead])
    ∧ countEv .pskRead ((main_iter none iterUnknown).2.drop 1) = 1 := by
  exact (iteration_psk_read none iterUnknown).2.2 (by simp) (by decide) rfl rfl

/-- C3: if an iteration continues and the next iteration's firmware poll
returns the same string that iteration polled, the loop raises the stall
`ValueError("Unchanged firmware")` and stops: the complete remaining trace
is the first iteration's calls, the repeated poll and the one commitment
read issued before the guard runs — no device call follows the error,
whatever fuel remains. -/
theorem stall_guard (env : Nat → IterInput) (previous : Option (List Char))
    (i fuel : Nat) (s : List Char) (tr : List Ev)
    (hstep : main_iter previous (env i) = (.again s, tr))
    (hpoll : (env (i + 1)).fw = s)
    (hok : (env (i + 1)).psk1.ok = true)
    (hfl : (env (i + 1)).psk1.flags = 0xbb020001) :
    s = (env i).fw
    ∧ main_loop env previous i (fuel + 2) =
        (some (.error (.valueError msgUnchangedFirmware)),
         tr ++ [.fwVersion s, .pskRead]) := by
  refine ⟨main_iter_again_eq _ _ _ _ hstep, ?_⟩
  have hcp : check_psk (env (i + 1)).psk1 =
      .ok ((env (i + 1)).psk1.data == PMK_HASH) := by
    unfold check_psk
    simp [hok, hfl]
  have hit2 : main_iter (some s) (env (i + 1)) =
      (.fail (.valueError msgUnchangedFirmware), [.fwVersion s, .pskRead]) := by
    unfold main_iter
    rw [hcp]
    simp [hpoll]
  have hstep2 : main_loop env (some s) (i + 1) (fuel + 1) =
      (some (.error (.valueError msgUnchangedFirmware)),
       [.fwVersion s, .pskRead]) := by
    unfold main_loop
    rw [hit2]
  show main_loop env previous i (fuel + 1 + 1) = _
  unfold main_loop
  rw [hstep]
  simp only [hstep2]

def obsStr : String := "GFUSB_GM168SEC_APP_10000"

/-- A concrete iteration input polling an obsolete-valid firmware string. -/
def iterObsolete : IterInput :=
  { fw := obsStr.data, psk1 := pskGood, writeOk := true, psk2 := pskGood,
    updateResult := none, runResult := none }

def envStall : Nat → IterInput := fun _ => iterObsolete

/-- Witness for C3: a device that keeps reporting the same obsolete firmware
stalls the loop on the second poll, right after that iteration's commitment
read. -/
theorem stall_guard_witness :
    main_loop envStall none 0 2 =
      (some (.error (.valueError msgUnchangedFirmware)),
       [.fwVersion obsStr.data, .pskRead, .eraseApp,
        .fwVersion obsStr.data, .pskRead]) := by
  have h := stall_guard envStall none 0 0 obsStr.data
    [.fwVersion obsStr.data, .pskRead, .eraseApp] (by decide) rfl rfl rfl
  exact h.2

/-- C4: for a firmware string classified UpdateMode (the IAP string): with a
valid provisioned key the controller invokes the update engine and then
rebinds to a fresh device session, never invoking the key provisioner's
write; with an invalid key it invokes `write_psk` first and proceeds to the
update engine only when that (including its readback check) succeeds,
raising `ValueError("Failed to write PSK")` with no update-engine call
otherwise. -/
theorem update_mode_routing (previous : Option (List Char)) (inp : IterInput)
    (hfw : inp.fw = IAP_FIRMWARE)
    (hprev : previous ≠ some IAP_FIRMWARE)
    (hok : inp.psk1.ok = true)
    (hfl : inp.psk1.flags = 0xbb020001) :
    ((inp.psk1.data == PMK_HASH) = true → inp.updateResult = none →
        main_iter previous inp =
          (.again IAP_FIRMWARE,
           [.fwVersion IAP_FIRMWARE, .pskRead, .updateFw, .newDevice, .nop]))
    ∧ ((inp.psk1.data == PMK_HASH) = false →
        ((write_psk inp.writeOk inp.psk2).1 = .ok true →
            inp.updateResult = none →
            main_iter previous inp =
              (.again IAP_FIRMWARE,
               [.fwVersion IAP_FIRMWARE, .pskRead, .pskWrite, .pskRead,
                .updateFw, .newDevice, .nop]))
        ∧ ((write_psk inp.writeOk inp.psk2).1 = .ok false →
            main_iter previous inp =
              (.fail (.valueError msgFailedWritePsk),
               .fwVersion IAP_FIRMWARE :: .pskRead ::
                 (write_psk inp.writeOk inp.psk2).2)
            ∧ countEv .updateFw (main_iter previous inp).2 = 0
            ∧ countEv .pskWrite (main_iter previous inp).2 = 1)) := by
  have hcp : check_psk inp.psk1 = .ok (inp.psk1.data == PMK_HASH) := by
    unfold check_psk
    simp [hok, hfl]
  have hclI : classify IAP_FIRMWARE = .updateMode := by decide
  refine ⟨?_, ?_⟩
  · intro hv hu
    unfold main_iter
    rw [hcp]
    simp [hfw, hprev, hclI, hv, hu]
  · intro hv
    constructor
    · intro hw hu
      have hwp := write_psk_ok_true inp.writeOk inp.psk2 hw
      unfold main_iter
      rw [hcp]
      simp [hfw, hprev, hclI, hv, hwp, hu]
    · intro hw
      rcases hwp : write_psk inp.writeOk inp.psk2 with ⟨res, wtr⟩
      rw [hwp] at hw
      simp at hw
      subst hw
      have heq : main_iter previous inp =
          (.fail (.valueError msgFailedWritePsk),
           .fwVersion IAP_FIRMWARE :: .pskRead :: wtr) := by
        unfold main_iter
        rw [hcp]
        simp [hfw, hprev, hclI, hv, hwp]
      have htr := write_psk_trace inp.writeOk inp.psk2
      rw [hwp] at htr
      simp at htr
      refine ⟨by simp [heq, hwp], ?_, ?_⟩ <;>
        · rw [heq]
          rcases htr with ht | ht <;> subst ht <;> simp [countEv]

/-- A concrete iteration input: IAP firmware polled with a valid key. -/
def iterIapValid : IterInput :=
  { fw := iapStr.data, psk1 := pskGood, writeOk := true, psk2 := pskGood,
    updateResult := none, runResult := none }

/-- Witness for C4: with IAP firmware and a valid key the iteration runs the
update engine and rebinds, with no key-provisioner write in the trace. -/
theorem update_mode_routing_witness :
    main_iter none iterIapValid =
      (.again IAP_FIRMWARE,
       [.fwVersion IAP_FIRMWARE, .pskRead, .updateFw, .newDevice, .nop]) := by
  exact (update_mode_routing none iterIapValid rfl (by simp) rfl rfl).1
    (by decide) rfl

/-! ## Session handshake relay (`connect_device`, lines 142-163) and the
capture sequencer (`get_image`, lines 166-284)

Modelled from the spec: the message-framing codec (`encode_message_pack` /
`check_message_pack`) and its two tag constants
(`FLAGS_TRANSPORT_LAYER_SECURITY`, `FLAGS_TRANSPORT_LAYER_SECURITY_DATA`)
live in the external `goodix` module, outside this repository's source file;
per the spec they are two distinct recognized framing tags, and unwrapping
with a mismatched expected tag is a protocol error.  The relay's own order
of operations and the tag passed at each call are taken from the source. -/

/-- The two framing tags: handshake (`FLAGS_TRANSPORT_LAYER_SECURITY`) and
application data (`FLAGS_TRANSPORT_LAYER_SECURITY_DATA`). -/
inductive Tag
  | tls
  | tlsData
deriving DecidableEq, Repr

def msgInvalidMsgPack : String := "Invalid message pack flags"

/-- Modelled from the spec: unwrap a framed device message, failing when the
carried tag differs from the expected one. -/
def check_message_pack (m : Tag × List Nat) (expected : Tag) :
    Except PyError (List Nat) :=
  if m.1 = expected then .ok m.2
  else .error (.valueError msgInvalidMsgPack)

/-- One step of the handshake relay, as observed at the device transport and
the engine loopback socket. -/
inductive RelayEv
  | requestTls
  | toEngine (data : List Nat)
  | fromEngine
  | writeDev (t : Tag) (data : List Nat)
  | readDev (t : Tag)
  | settleDelay
deriving DecidableEq, Repr

/-- The messages the relay observes: the device's initial handshake message,
the successive engine replies (`tls_client.recv`), and the successive framed
device messages (`device.protocol.read()`). -/
structure ConnEnv where
  devInit : List Nat
  engineMsg : Nat → List Nat
  devMsg : Nat → Tag × List Nat

/-- `connect_device` (lines 142-163): forward the device's handshake
initiation verbatim to the engine; write the engine reply to the device
wrapped with the handshake tag; read three framed device messages, unwrap
each with the handshake tag and forward in order; write one final engine
message wrapped with the handshake tag; settle. -/
def connect_device (env : ConnEnv) : Except PyError Unit × List RelayEv :=
  let tr0 := [RelayEv.requestTls, .toEngine env.devInit,
              .fromEngine, .writeDev .tls (env.engineMsg 0)]
  match check_message_pack (env.devMsg 0) .tls with
  | .error e => (.error e, tr0 ++ [.readDev .tls])
  | .ok d0 =>
    match check_message_pack (env.devMsg 1) .tls with
    | .error e => (.error e, tr0 ++ [.readDev .tls, .toEngine d0, .readDev .tls])
    | .ok d1 =>
      match check_message_pack (env.devMsg 2) .tls with
      | .error e =>
        (.error e, tr0 ++ [.readDev .tls, .toEngine d0,
                           .readDev .tls, .toEngine d1, .readDev .tls])
      | .ok d2 =>
        (.ok (), tr0 ++ [.readDev .tls, .toEngine d0,
                         .readDev .tls, .toEngine d1,
                         .readDev .tls, .toEngine d2,
                         .fromEngine, .writeDev .tls (env.engineMsg 1),
                         .settleDelay])

/-- A capture-sequencer operation (`get_image`).  The opaque vendor
parameter blobs of the frame-detection mode switches and MCU state queries
are not modelled (the spec treats them as data, not logic); the frame
requests keep their parameter bytes and framing tag. -/
inductive CapEv
  | uploadConfig
  | setDrvState
  | povImage
  | fdtMode (blocking : Bool)
  | fdtDown (blocking : Bool)
  | writeReg (addr : Nat) (v : List Nat)
  | imageReq (payload : List Nat) (t : Tag)
  | toEngine
  | readFrame
  | writePgmFile (name : String)
  | setPovConfig
  | sleepMode
  | queryMcu (arg : List Nat)
deriving DecidableEq, Repr

def pgmClear0 : String := "clear-0.pgm"

def pgmClear1 : String := "clear-1.pgm"

def pgmClear2 : String := "clear-2.pgm"

def pgmClear3 : String := "clear-3.pgm"

def pgmFinger : String := "fingerprint.pgm"

/-- The ordered operations of `get_image` (lines 166-284).  Every frame
request (`mcu_get_image`) passes `FLAGS_TRANSPORT_LAYER_SECURITY_DATA`; each
is followed by reading one 7684-byte frame from the engine's decrypted
stream and writing one PGM file. -/
def get_image_calls : List CapEv :=
  [.uploadConfig, .setDrvState, .povImage,
   .fdtMode false, .fdtMode true,
   .writeReg 0x022c [0x0a, 0x03],
   .imageReq [0x01, 0x03, 0x27, 0x01, 0x21, 0x01, 0x27, 0x01, 0x23, 0x01] .tlsData,
   .toEngine, .readFrame, .writePgmFile pgmClear0,
   .writeReg 0x022c [0x0a, 0x02],
   .writeReg 0x022c [0x0a, 0x03],
   .imageReq [0x81, 0x03, 0x27, 0x01, 0x21, 0x01, 0x27, 0x01, 0x23, 0x01] .tlsData,
   .toEngine, .readFrame, .writePgmFile pgmClear1,
   .writeReg 0x022c [0x0a, 0x02],
   .writeReg 0x022c [0x0a, 0x03],
   .imageReq [0x81, 0x03, 0x18, 0x01, 0x12, 0x01, 0x18, 0x01, 0x14, 0x01] .tlsData,
   .toEngine, .readFrame, .writePgmFile pgmClear2,
   .writeReg 0x022c [0x0a, 0x02],
   .fdtMode false, .fdtMode true,
   .writeReg 0x022c [0x0a, 0x03],
   .imageReq [0x81, 0x03, 0x27, 0x01, 0x21, 0x01, 0x27, 0x01, 0x23, 0x01] .tlsData,
   .toEngine, .readFrame, .writePgmFile pgmClear3,
   .writeReg 0x022c [0x0a, 0x02],
   .fdtMode false, .fdtMode true,
   .setPovConfig, .sleepMode,
   .queryMcu [0x01, 0x01, 0x01],
   .fdtDown false, .fdtDown false,
   .sleepMode,
   .queryMcu [0x00, 0x00, 0x00],
   .queryMcu [0x01, 0x01, 0x01],
   .fdtDown false, .fdtDown true,
   .fdtMode false, .fdtMode true,
   .writeReg 0x022c [0x05, 0x03],
   .imageReq [0x45, 0x03, 0xa7, 0x00, 0xa1, 0x00, 0xa7, 0x00, 0xa3, 0x00] .tlsData,
   .toEngine, .readFrame, .writePgmFile pgmFinger]

/-- C5: when the three framed device messages carry the handshake tag, the
relay performs exactly the ordered exchange — device handshake initiation
forwarded verbatim, one wrapped engine reply, three device messages
unwrapped with the handshake tag and forwarded in order, one final wrapped
engine message, then the settle delay — and every post-handshake frame
request of the capture sequencer uses the application-data tag, never the
handshake tag (the two tags being distinct). -/
theorem handshake_relay (env : ConnEnv)
    (h0 : (env.devMsg 0).1 = .tls)
    (h1 : (env.devMsg 1).1 = .tls)
    (h2 : (env.devMsg 2).1 = .tls) :
    connect_device env =
      (.ok (), [.requestTls, .toEngine env.devInit,
                .fromEngine, .writeDev .tls (env.engineMsg 0),
                .readDev .tls, .toEngine (env.devMsg 0).2,
                .readDev .tls, .toEngine (env.devMsg 1).2,
                .readDev .tls, .toEngine (env.devMsg 2).2,
                .fromEngine, .writeDev .tls (env.engineMsg 1),
                .settleDelay])
    ∧ (∀ p t, CapEv.imageReq p t ∈ get_image_calls → t = .tlsData)
    ∧ (∀ p, CapEv.imageReq p Tag.tls ∉ get_image_calls)
    ∧ Tag.tls ≠ Tag.tlsData := by
  refine ⟨?_, ?_, ?_, by decide⟩
  · unfold connect_device check_message_pack
    simp [h0, h1, h2]
  · intro p t hm
    cases t
    · exfalso
      unfold get_image_calls at hm
      simp at hm
    · rfl
  · intro p hm
    unfold get_image_calls at hm
    simp at hm

/-- A concrete relay environment whose device messages all carry the
handshake tag. -/
def connEnvGood : ConnEnv :=
  { devInit := [1], engineMsg := fun _ => [2], devMsg := fun _ => (.tls, [3]) }

/-- Witness for C5 at a concrete environment: the exact thirteen-step
handshake exchange. -/
theorem handshake_relay_witness :
    connect_device connEnvGood =
      (.ok (), [.requestTls, .toEngine [1],
                .fromEngine, .writeDev .tls [2],
                .readDev .tls, .toEngine [3],
                .readDev .tls, .toEngine [3],
                .readDev .tls, .toEngine [3],
                .fromEngine, .writeDev .tls [2],
                .settleDelay]) := by
  exact (handshake_relay connEnvGood rfl rfl rfl).1

/-! ## PGM output (`write_pgm`, lines 287-293) -/

/-- `SENSOR_WIDTH` (line 45). -/
def SENSOR_WIDTH : Nat := 80

/-- `SENSOR_HEIGHT` (line 46). -/
def SENSOR_HEIGHT : Nat := 88

/-- `write_pgm` (lines 287-293), as the text written to the file: the
header `f"P2\n{SENSOR_HEIGHT} {SENSOR_WIDTH}\n4095\n"` followed by the
pixel values joined with newlines. -/
def write_pgm (image : List Nat) : String :=
  ("P2\n" ++ toString SENSOR_HEIGHT ++ " " ++ toString SENSOR_WIDTH
    ++ "\n4095\n")
  ++ String.intercalate nlStr (image.map toString)

/-- The spec's description of the output text: exactly the literal header
`P2\n88 80\n4095\n` (height 88 then width 80, maximum value 4095) followed
by the decimal pixel values separated by single newlines, nothing else. -/
def pgmTextSpec (image : List Nat) : String :=
  "P2\n88 80\n4095\n" ++ String.intercalate nlStr (image.map toString)

/-- C9: for every decoded pixel list, the written PGM file's text is exactly
the header `P2\n88 80\n4095\n` followed by the pixel values as decimal
integers separated by single newlines, with no other characters. -/
theorem pgm_output (image : List Nat) :
    write_pgm image = pgmTextSpec image := by
  unfold write_pgm pgmTextSpec
  congr 1
